import Mathlib

/-!
# Verification of the websocketpp per-connection state machine

Shallow embedding of `src/websocketpp/connection.hpp` (the `connection`
class template, its companion enums and constants). The repository ships
only this declaration file: the member-function bodies live in
`websocketpp/impl/connection_impl.hpp`, which is not part of the sources.
Definitions for such members are modelled from the specification and are
marked as such in their doc comments; everything else is translated
directly from the header.
-/

namespace Websocketpp

/-- Externally visible session state, `session::state::value`
(connection.hpp lines 68-73): CONNECTING = 0, OPEN = 1, CLOSING = 2,
CLOSED = 3. -/
inductive SessionState
  | CONNECTING
  | OPEN
  | CLOSING
  | CLOSED
deriving DecidableEq, Repr, Fintype

/-- The numeric value each enumerator carries in the C++ enum. -/
def SessionState.toNat : SessionState → Nat
  | .CONNECTING => 0
  | .OPEN => 1
  | .CLOSING => 2
  | .CLOSED => 3

/-- Internal connection state, `session::internal_state::value`
(connection.hpp lines 95-104). -/
inductive InternalState
  | USER_INIT
  | TRANSPORT_INIT
  | READ_HTTP_REQUEST
  | WRITE_HTTP_REQUEST
  | READ_HTTP_RESPONSE
  | WRITE_HTTP_RESPONSE
  | PROCESS_HTTP_REQUEST
  | PROCESS_CONNECTION
deriving DecidableEq, Repr, Fintype

/-- The numeric value each enumerator carries in the C++ enum. -/
def InternalState.toNat : InternalState → Nat
  | .USER_INIT => 0
  | .TRANSPORT_INIT => 1
  | .READ_HTTP_REQUEST => 2
  | .WRITE_HTTP_REQUEST => 3
  | .READ_HTTP_RESPONSE => 4
  | .WRITE_HTTP_RESPONSE => 5
  | .PROCESS_HTTP_REQUEST => 6
  | .PROCESS_CONNECTION => 7

/-- `VERSIONS_SUPPORTED` (connection.hpp lines 57-62): both preprocessor
branches produce the vector holding 0, 7, 8, 13 in that order. -/
def VERSIONS_SUPPORTED : List Int := [0, 7, 8, 13]

/-- The connection members that the constructor initializer list sets
(connection.hpp lines 175-183): `m_user_agent(ua)`,
`m_state(session::state::CONNECTING)`,
`m_internal_state(session::internal_state::USER_INIT)`,
`m_send_buffer_size(0)`, `m_is_server(is_server)`. `m_user_agent` and
`m_is_server` are declared `const` in the class (lines 695, 763), so they
stay as constructed. -/
structure ConnectionInit where
  m_user_agent : String
  m_state : SessionState
  m_internal_state : InternalState
  m_send_buffer_size : Nat
  m_is_server : Bool
deriving DecidableEq, Repr

/-- `connection::connection(bool is_server, const std::string& ua)`
(connection.hpp lines 175-185). The body runs
`std::cout << "connection constructor" << std::endl;`, so the constructor
yields the initialized members together with the list of lines written to
standard output. -/
def connection_constructor (is_server : Bool) (ua : String) :
    ConnectionInit × List String :=
  (⟨ua, .CONNECTING, .USER_INIT, 0, is_server⟩, ["connection constructor"])

/-- Claim C9: for every pair of constructor arguments, constructing a
connection unconditionally writes the line "connection constructor" to
standard output. -/
theorem constructor_always_logs (is_server : Bool) (ua : String) :
    (connection_constructor is_server ua).2 = ["connection constructor"] :=
  rfl

/-- Claim C10: a freshly constructed connection starts with external state
CONNECTING, internal state USER_INIT, and send-buffer size 0, and stores
the is_server role and user-agent string as given (both members are
`const` in the source, hence immutable). -/
theorem constructor_initial_state (is_server : Bool) (ua : String) :
    (connection_constructor is_server ua).1.m_state = SessionState.CONNECTING ∧
    (connection_constructor is_server ua).1.m_internal_state = InternalState.USER_INIT ∧
    (connection_constructor is_server ua).1.m_send_buffer_size = 0 ∧
    (connection_constructor is_server ua).1.m_is_server = is_server ∧
    (connection_constructor is_server ua).1.m_user_agent = ua :=
  ⟨rfl, rfl, rfl, rfl, rfl⟩

/-- Modelled from the spec: the code that mutates `m_state` lives in
`websocketpp/impl/connection_impl.hpp`, which is not among the sources;
only the field (connection.hpp lines 702-712) and the enum are. The spec
states the permitted external transitions as CONNECTING → OPEN,
OPEN → CLOSING, CLOSING → CLOSED, with CONNECTING allowed to shortcut
directly to CLOSED on failure. `ext_transition s t` holds exactly for
those state-changing edges. -/
def ext_transition : SessionState → SessionState → Bool
  | .CONNECTING, .OPEN => true
  | .OPEN, .CLOSING => true
  | .CLOSING, .CLOSED => true
  | .CONNECTING, .CLOSED => true
  | _, _ => false

/-- Claim C1: the external state only ever advances along
CONNECTING < OPEN < CLOSING < CLOSED: an operation either leaves the state
unchanged or takes a transition to a strictly greater state, the only
skip over an intermediate state being CONNECTING directly to CLOSED; no
transition moves the state backwards. -/
theorem ext_state_monotone (s t : SessionState) :
    (ext_transition s t = true ∨ s = t → s.toNat ≤ t.toNat) ∧
    (ext_transition s t = true → s.toNat < t.toNat) ∧
    (ext_transition s t = true → s.toNat + 1 < t.toNat →
      s = SessionState.CONNECTING ∧ t = SessionState.CLOSED) := by
  revert s t
  decide

/-- Witness for `ext_state_monotone` at the failure shortcut
CONNECTING → CLOSED. -/
theorem ext_state_monotone_witness :
    ext_transition SessionState.CONNECTING SessionState.CLOSED = true ∧
    SessionState.CONNECTING.toNat < SessionState.CLOSED.toNat ∧
    (SessionState.CONNECTING = SessionState.CONNECTING ∧
      SessionState.CLOSED = SessionState.CLOSED) :=
  ⟨by decide,
   (ext_state_monotone SessionState.CONNECTING SessionState.CLOSED).2.1 (by decide),
   (ext_state_monotone SessionState.CONNECTING SessionState.CLOSED).2.2 (by decide)
     (by decide)⟩

/-- One declared public member function of `class connection`, as it
appears in connection.hpp: its name, whether it takes a
`lib::error_code &` out-parameter, and whether it returns a
`lib::error_code`. -/
structure PublicDecl where
  name : String
  has_ec_out_param : Bool
  returns_error_code : Bool
deriving DecidableEq, Repr

/-- The public member functions declared in connection.hpp
(lines 198-554), one entry per declaration, in source order. Overloads
appear once per overload. -/
def public_member_decls : List PublicDecl :=
  [⟨"set_handle", false, false⟩,
   ⟨"get_handle", false, false⟩,
   ⟨"set_open_handler", false, false⟩,
   ⟨"set_handler", false, false⟩,
   ⟨"get_origin", false, false⟩,
   ⟨"get_buffered_amount", false, false⟩,
   ⟨"buffered_amount", false, false⟩,
   ⟨"send", false, false⟩,
   ⟨"send", false, false⟩,
   ⟨"interrupt", false, true⟩,
   ⟨"handle_interrupt", false, false⟩,
   ⟨"ping", false, false⟩,
   ⟨"pong", false, false⟩,
   ⟨"pong", true, false⟩,
   ⟨"close", false, false⟩,
   ⟨"close", true, false⟩,
   ⟨"get_secure", false, false⟩,
   ⟨"get_host", false, false⟩,
   ⟨"get_resource", false, false⟩,
   ⟨"get_port", false, false⟩,
   ⟨"set_status", false, false⟩,
   ⟨"set_status", false, false⟩,
   ⟨"set_body", false, false⟩,
   ⟨"append_header", false, false⟩,
   ⟨"replace_header", false, false⟩,
   ⟨"remove_header", false, false⟩,
   ⟨"start", false, false⟩,
   ⟨"read", false, false⟩,
   ⟨"handle_read", false, false⟩,
   ⟨"write", false, false⟩,
   ⟨"handle_write", false, false⟩,
   ⟨"handle_handshake_read", false, false⟩,
   ⟨"handle_read_frame", false, false⟩,
   ⟨"handle_send_http_response", false, false⟩,
   ⟨"get_supported_versions", false, false⟩,
   ⟨"set_termination_handler", false, false⟩,
   ⟨"terminate", false, false⟩,
   ⟨"write_frame", false, false⟩,
   ⟨"handle_write_frame", false, false⟩]

/-- `n` has a declared overload that neither takes an error-code
out-parameter nor returns an error code: errors can only surface as an
exception. -/
def has_raising_form (n : String) : Bool :=
  public_member_decls.any
    (fun d => d.name = n && !d.has_ec_out_param && !d.returns_error_code)

/-- `n` has a declared overload reporting errors through a
`lib::error_code &` out-parameter. -/
def has_ec_form (n : String) : Bool :=
  public_member_decls.any (fun d => d.name = n && d.has_ec_out_param)

/-- `n` exists in both forms: one that raises and one that reports through
a status-code out-parameter. -/
def has_dual_forms (n : String) : Bool :=
  has_raising_form n && has_ec_form n

/-- Counterexample to claim C5 as stated: `ping` is one of the public
operations the claim covers, yet connection.hpp declares only
`void ping(const std::string&)` — no error-code out-parameter overload
exists for it. -/
theorem not_every_op_has_dual_forms :
    "ping" ∈ ["send", "ping", "pong", "close", "interrupt"] ∧
    has_dual_forms "ping" = false := by
  decide

/-- Claim C5 (amended): of the public operations send, ping, pong, close,
interrupt, only pong and close exist in the two forms (raising and
error-code out-parameter); send and ping are declared only in the raising
form, and interrupt reports errors solely through its returned error
code. -/
theorem dual_forms_for_pong_and_close_only :
    has_dual_forms "pong" = true ∧
    has_dual_forms "close" = true ∧
    has_dual_forms "send" = false ∧
    has_dual_forms "ping" = false ∧
    has_dual_forms "interrupt" = false ∧
    has_raising_form "send" = true ∧
    has_raising_form "ping" = true ∧
    public_member_decls.any
      (fun d => d.name = "interrupt" && d.returns_error_code) = true := by
  decide

/-- The pair of state fields guarded by `m_connection_state_lock`
(connection.hpp lines 702-714): the internal state `m_internal_state` and
the external state `m_state`. -/
structure StatePair where
  m_internal_state : InternalState
  m_state : SessionState
deriving DecidableEq, Repr

/-- Modelled from the spec: the body of
`atomic_state_change(istate_type req, istate_type dest, std::string msg)`
is in `websocketpp/impl/connection_impl.hpp`, absent from the sources;
only its declaration and doc comment (connection.hpp lines 566-576) are
present. Per the spec, under the state lock: if the internal state does
not match `req` an exception carrying `msg` is thrown (modelled as
`Except.error`, leaving the state fields untouched); otherwise the
internal state is set to `dest`. -/
def atomic_state_change (st : StatePair) (req dest : InternalState)
    (msg : String) : Except String StatePair :=
  if st.m_internal_state = req then
    Except.ok { st with m_internal_state := dest }
  else
    Except.error msg

/-- Modelled from the spec: the body of the internal+external overload
`atomic_state_change(ireq, idest, ereq, edest, msg)` (declared at
connection.hpp lines 592-594) is in the missing impl file. Under the
state lock: if either current state differs from its required value the
call fails with `msg`; otherwise both states are set to their
destinations. -/
def atomic_state_change_both (st : StatePair) (ireq idest : InternalState)
    (ereq edest : SessionState) (msg : String) : Except String StatePair :=
  if st.m_internal_state = ireq ∧ st.m_state = ereq then
    Except.ok ⟨idest, edest⟩
  else
    Except.error msg

/-- Modelled from the spec: the body of
`atomic_state_check(istate_type req, std::string msg)` (declared at
connection.hpp lines 596-603) is in the missing impl file. Under the
state lock: if the internal state does not match `req` an exception
carrying `msg` is thrown; otherwise nothing changes. -/
def atomic_state_check (st : StatePair) (req : InternalState)
    (msg : String) : Except String Unit :=
  if st.m_internal_state = req then Except.ok () else Except.error msg

/-- The state the connection holds after an atomic primitive returns:
on success the state the primitive produced, on an exception the state it
was called with (the throw happens before any assignment). -/
def state_after_change (st : StatePair) (r : Except String StatePair) :
    StatePair :=
  match r with
  | Except.ok s => s
  | Except.error _ => st

/-- Claim C7: each atomic state primitive, executed as one step under the
state lock, fails with the programmer-error message and leaves both state
fields unchanged when the current state differs from the required one,
and otherwise sets the state to the destination. -/
theorem atomic_state_primitives_spec (st : StatePair)
    (req dest ireq idest : InternalState) (ereq edest : SessionState)
    (msg : String) :
    (st.m_internal_state ≠ req →
      atomic_state_change st req dest msg = Except.error msg ∧
      state_after_change st (atomic_state_change st req dest msg) = st) ∧
    (st.m_internal_state = req →
      atomic_state_change st req dest msg =
        Except.ok ⟨dest, st.m_state⟩) ∧
    (¬(st.m_internal_state = ireq ∧ st.m_state = ereq) →
      atomic_state_change_both st ireq idest ereq edest msg =
        Except.error msg ∧
      state_after_change st
        (atomic_state_change_both st ireq idest ereq edest msg) = st) ∧
    (st.m_internal_state = ireq → st.m_state = ereq →
      atomic_state_change_both st ireq idest ereq edest msg =
        Except.ok ⟨idest, edest⟩) ∧
    (st.m_internal_state ≠ req →
      atomic_state_check st req msg = Except.error msg) ∧
    (st.m_internal_state = req →
      atomic_state_check st req msg = Except.ok ()) := by
  refine ⟨fun h => ?_, fun h => ?_, fun h => ?_, fun h1 h2 => ?_,
    fun h => ?_, fun h => ?_⟩
  · simp [atomic_state_change, state_after_change, h]
  · simp [atomic_state_change, h]
  · simp [atomic_state_change_both, if_neg h, state_after_change]
  · simp [atomic_state_change_both, h1, h2]
  · simp [atomic_state_check, h]
  · simp [atomic_state_check, h]

/-- Witness for `atomic_state_primitives_spec`: from
⟨USER_INIT, CONNECTING⟩, requiring TRANSPORT_INIT fails and leaves the
state unchanged, while requiring USER_INIT succeeds and moves the
internal state. -/
theorem atomic_state_primitives_spec_witness :
    (atomic_state_change ⟨InternalState.USER_INIT, SessionState.CONNECTING⟩
        InternalState.TRANSPORT_INIT InternalState.READ_HTTP_REQUEST "err" =
        Except.error "err" ∧
      state_after_change ⟨InternalState.USER_INIT, SessionState.CONNECTING⟩
        (atomic_state_change ⟨InternalState.USER_INIT, SessionState.CONNECTING⟩
          InternalState.TRANSPORT_INIT InternalState.READ_HTTP_REQUEST "err") =
        ⟨InternalState.USER_INIT, SessionState.CONNECTING⟩) ∧
    atomic_state_change_both ⟨InternalState.USER_INIT, SessionState.CONNECTING⟩
      InternalState.USER_INIT InternalState.TRANSPORT_INIT
      SessionState.CONNECTING SessionState.CONNECTING "err" =
      Except.ok ⟨InternalState.TRANSPORT_INIT, SessionState.CONNECTING⟩ ∧
    atomic_state_check ⟨InternalState.USER_INIT, SessionState.CONNECTING⟩
      InternalState.USER_INIT "err" = Except.ok () :=
  ⟨(atomic_state_primitives_spec ⟨InternalState.USER_INIT, SessionState.CONNECTING⟩
      InternalState.TRANSPORT_INIT InternalState.READ_HTTP_REQUEST
      InternalState.USER_INIT InternalState.TRANSPORT_INIT
      SessionState.CONNECTING SessionState.CONNECTING "err").1 (by decide),
   (atomic_state_primitives_spec ⟨InternalState.USER_INIT, SessionState.CONNECTING⟩
      InternalState.TRANSPORT_INIT InternalState.READ_HTTP_REQUEST
      InternalState.USER_INIT InternalState.TRANSPORT_INIT
      SessionState.CONNECTING SessionState.CONNECTING "err").2.2.2.1 rfl rfl,
   (atomic_state_primitives_spec ⟨InternalState.USER_INIT, SessionState.CONNECTING⟩
      InternalState.USER_INIT InternalState.READ_HTTP_REQUEST
      InternalState.USER_INIT InternalState.TRANSPORT_INIT
      SessionState.CONNECTING SessionState.CONNECTING "err").2.2.2.2.2 rfl⟩

/-- A callback delivered to a handler object during a handler swap:
`on_unload receiver arg` stands for `receiver->on_unload(con, arg)` and
`on_load receiver arg` for `receiver->on_load(con, arg)` (handlers are
identified by a number standing for the handler pointer). -/
inductive HandlerSwapCallback
  | on_unload (receiver : Nat) (arg : Nat)
  | on_load (receiver : Nat) (arg : Nat)
deriving DecidableEq, Repr

/-- Modelled from the spec: the body of `set_handler(handler_ptr)` is in
`websocketpp/impl/connection_impl.hpp`, absent from the sources; only its
declaration and doc comment (connection.hpp lines 218-232) are present.
Under the state lock the handler pointer is swapped to `new_handler`,
then `old.on_unload(connection, new)` and `new.on_load(connection, old)`
are invoked synchronously in that order, all before returning. The result
is the stored handler after the call together with the callbacks
delivered during it, in order. -/
def set_handler (old_handler new_handler : Nat) :
    Nat × List HandlerSwapCallback :=
  (new_handler,
   [HandlerSwapCallback.on_unload old_handler new_handler,
    HandlerSwapCallback.on_load new_handler old_handler])

/-- A callback dispatch reads the stored handler pointer and delivers to
that handler. -/
def dispatch_target (stored_handler : Nat) : Nat := stored_handler

/-- Claim C6: `set_handler(new)` swaps the handler pointer and
synchronously invokes `old.on_unload(connection, new)` first and then
`new.on_load(connection, old)`, both before returning; every callback
dispatched after the swap targets the new handler. -/
theorem set_handler_spec (old_h new_h : Nat) :
    (set_handler old_h new_h).1 = new_h ∧
    (set_handler old_h new_h).2 =
      [HandlerSwapCallback.on_unload old_h new_h,
       HandlerSwapCallback.on_load new_h old_h] ∧
    dispatch_target (set_handler old_h new_h).1 = new_h :=
  ⟨rfl, rfl, rfl⟩

/-- The maximum close-reason length in bytes, per the doc comment of
`close` (connection.hpp line 354): "Reasons will be automatically
truncated to the maximum length (123 bytes) if necessary." -/
def close_reason_max_bytes : Nat := 123

/-- The close-state members populated by a local close
(connection.hpp lines 766-779): `m_local_close_code`,
`m_local_close_reason`, `m_closed_by_me`, together with the external
state after the call. The reason is a byte sequence. -/
structure CloseState where
  m_local_close_code : Int
  m_local_close_reason : List Nat
  m_closed_by_me : Bool
  m_state : SessionState
deriving DecidableEq, Repr

/-- Modelled from the spec: the body of
`close(close::status::value code, const std::string& reason)` is in
`websocketpp/impl/connection_impl.hpp`, absent from the sources; only its
declaration and doc comment (connection.hpp lines 340-365) are present.
Per the spec: truncate the reason to 123 bytes, populate the local close
fields, send a CLOSE frame carrying them, external state → CLOSING,
`closed_by_me := true`. The second component is the reason bytes placed
on the wire. -/
def close (code : Int) (reason : List Nat) : CloseState × List Nat :=
  let r := reason.take close_reason_max_bytes
  (⟨code, r, true, SessionState.CLOSING⟩, r)

/-- Claim C8: a close reason longer than 123 bytes is truncated to
exactly its first 123 bytes both on the wire and in the recorded local
close reason; a reason of at most 123 bytes is sent unchanged. -/
theorem close_reason_truncated (code : Int) (reason : List Nat) :
    (close code reason).2 = (close code reason).1.m_local_close_reason ∧
    (123 < reason.length →
      (close code reason).2 = reason.take 123 ∧
      (close code reason).2.length = 123) ∧
    (reason.length ≤ 123 →
      (close code reason).2 = reason) := by
  refine ⟨rfl, fun h => ⟨rfl, ?_⟩, fun h => ?_⟩
  · simp [close, close_reason_max_bytes]
    omega
  · simp [close, close_reason_max_bytes, List.take_of_length_le h]

/-- Witness for `close_reason_truncated` at a 200-byte reason: the wire
reason is the first 123 bytes. -/
theorem close_reason_truncated_witness :
    (close 1000 (List.replicate 200 65)).2 =
      (List.replicate 200 65).take 123 ∧
    (close 1000 (List.replicate 200 65)).2.length = 123 :=
  (close_reason_truncated 1000 (List.replicate 200 65)).2.1
    (by rw [List.length_replicate]; omega)

/-- The per-connection shared write state guarded by `m_write_lock`
(connection.hpp lines 740-756): the queue of unsent outgoing messages
`m_send_queue` (each message stands for its payload size in bytes), the
payload size of the message currently being written (if any), and
`m_send_buffer_size`, "size in bytes of the outstanding payloads in the
write queue". -/
structure WriteState where
  m_send_queue : List Nat
  in_flight : Option Nat
  m_send_buffer_size : Nat
deriving DecidableEq, Repr

/-- The write state at construction: empty queue, no write in flight, and
`m_send_buffer_size(0)` from the constructor initializer list
(connection.hpp line 181). -/
def initial_write_state : WriteState := ⟨[], none, 0⟩

/-- Modelled from the spec: the body of `get_buffered_amount()` is in
`websocketpp/impl/connection_impl.hpp`, absent from the sources; per its
doc comment (connection.hpp lines 244-255) it reads, under
`m_write_lock`, the number of payload bytes not yet dispatched to the
transport, i.e. `m_send_buffer_size`. -/
def get_buffered_amount (st : WriteState) : Nat := st.m_send_buffer_size

/-- Modelled from the spec: the body of `write_push(message_ptr)`
(declared at connection.hpp lines 667-679) is in the missing impl file.
Under `m_write_lock` it appends the message to the send queue and adds
its payload size to `m_send_buffer_size`. -/
def write_push (st : WriteState) (payload_size : Nat) : WriteState :=
  ⟨st.m_send_queue ++ [payload_size], st.in_flight,
   st.m_send_buffer_size + payload_size⟩

/-- Modelled from the spec: the body of `write_frame()` (declared at
connection.hpp lines 534-540) is in the missing impl file. Under
`m_write_lock`: if the queue is non-empty and no write is in flight, pop
the head message (via `write_pop`), prepare it and submit it to the
transport; the popped message becomes the in-flight message and its
payload stays counted in `m_send_buffer_size` until its write
completes. -/
def write_frame (st : WriteState) : WriteState :=
  match st.in_flight, st.m_send_queue with
  | none, sz :: rest => ⟨rest, some sz, st.m_send_buffer_size⟩
  | _, _ => st

/-- Modelled from the spec: the body of `handle_write_frame` (declared at
connection.hpp lines 542-554) is in the missing impl file. On write
completion, under `m_write_lock`, the completed message's payload size is
subtracted from `m_send_buffer_size` and the in-flight slot is
released. -/
def handle_write_frame (st : WriteState) : WriteState :=
  match st.in_flight with
  | some sz => ⟨st.m_send_queue, none, st.m_send_buffer_size - sz⟩
  | none => st

/-- The bookkeeping quantity of the spec: the sum of the payload sizes of
all queued messages plus the payload size of the in-flight message, if
any. -/
def queued_plus_in_flight (st : WriteState) : Nat :=
  st.m_send_queue.sum + (st.in_flight.getD 0)

/-- One write-pump operation: an enqueue of a message with the given
payload size, the pump popping the next message, or a write
completion. -/
inductive WriteOp
  | push (payload_size : Nat)
  | frame
  | complete
deriving DecidableEq, Repr

/-- Apply one write-pump operation to the write state. -/
def apply_write_op (st : WriteState) : WriteOp → WriteState
  | WriteOp.push sz => write_push st sz
  | WriteOp.frame => write_frame st
  | WriteOp.complete => handle_write_frame st

/-- Run a sequence of write-pump operations from a starting state. -/
def run_write_ops (st : WriteState) (ops : List WriteOp) : WriteState :=
  ops.foldl apply_write_op st

/-- Each single write-pump operation preserves the equality between
`m_send_buffer_size` and the queued-plus-in-flight payload sum. -/
theorem apply_write_op_preserves (st : WriteState) (op : WriteOp)
    (h : get_buffered_amount st = queued_plus_in_flight st) :
    get_buffered_amount (apply_write_op st op) =
      queued_plus_in_flight (apply_write_op st op) := by
  cases op with
  | push sz =>
      simp [apply_write_op, write_push, get_buffered_amount,
        queued_plus_in_flight] at h ⊢
      omega
  | frame =>
      cases hf : st.in_flight with
      | none =>
          cases hq : st.m_send_queue with
          | nil =>
              simpa [apply_write_op, write_frame, hf, hq] using h
          | cons sz rest =>
              simp [apply_write_op, write_frame, hf, hq,
                get_buffered_amount, queued_plus_in_flight] at h ⊢
              omega
      | some sz =>
          simpa [apply_write_op, write_frame, hf] using h
  | complete =>
      cases hf : st.in_flight with
      | none =>
          simpa [apply_write_op, handle_write_frame, hf] using h
      | some sz =>
          simp [apply_write_op, handle_write_frame, hf,
            get_buffered_amount, queued_plus_in_flight] at h ⊢
          omega

/-- Running any sequence of write-pump operations preserves the
buffered-amount bookkeeping equality. -/
theorem run_write_ops_preserves (ops : List WriteOp) (st : WriteState)
    (h : get_buffered_amount st = queued_plus_in_flight st) :
    get_buffered_amount (run_write_ops st ops) =
      queued_plus_in_flight (run_write_ops st ops) := by
  induction ops generalizing st with
  | nil => simpa [run_write_ops] using h
  | cons op rest ih =>
      have hstep := apply_write_op_preserves st op h
      simpa [run_write_ops, List.foldl_cons] using
        ih (apply_write_op st op) hstep

/-- Claim C3: at every quiescent point reachable from the initial write
state, `get_buffered_amount` is non-negative and equals the sum of the
payload sizes of the queued messages plus the in-flight message;
moreover every enqueue adds the enqueued payload size to the counter and
every write completion subtracts the completed payload size. -/
theorem buffered_amount_invariant (ops : List WriteOp) :
    (0 ≤ get_buffered_amount (run_write_ops initial_write_state ops) ∧
      get_buffered_amount (run_write_ops initial_write_state ops) =
        queued_plus_in_flight (run_write_ops initial_write_state ops)) ∧
    (∀ sz,
      get_buffered_amount
          (write_push (run_write_ops initial_write_state ops) sz) =
        get_buffered_amount (run_write_ops initial_write_state ops) + sz) ∧
    (∀ sz,
      (run_write_ops initial_write_state ops).in_flight = some sz →
      get_buffered_amount
          (handle_write_frame (run_write_ops initial_write_state ops)) + sz =
        get_buffered_amount (run_write_ops initial_write_state ops)) := by
  have hinv : get_buffered_amount (run_write_ops initial_write_state ops) =
      queued_plus_in_flight (run_write_ops initial_write_state ops) :=
    run_write_ops_preserves ops initial_write_state rfl
  refine ⟨⟨Nat.zero_le _, hinv⟩, fun sz => rfl, fun sz hf => ?_⟩
  have hge : sz ≤ get_buffered_amount (run_write_ops initial_write_state ops) := by
    rw [hinv]
    simp [queued_plus_in_flight, hf]
  simp [handle_write_frame, hf, get_buffered_amount] at hge ⊢
  omega

/-- Witness for `buffered_amount_invariant` with the operation sequence
push 5, push 7, frame: the buffered amount is 12, matching the
bookkeeping, grows by an enqueue, and completing the in-flight write of
size 5 brings it back down. -/
theorem buffered_amount_invariant_witness :
    (0 ≤ get_buffered_amount
        (run_write_ops initial_write_state
          [WriteOp.push 5, WriteOp.push 7, WriteOp.frame]) ∧
      get_buffered_amount
          (run_write_ops initial_write_state
            [WriteOp.push 5, WriteOp.push 7, WriteOp.frame]) =
        queued_plus_in_flight
          (run_write_ops initial_write_state
            [WriteOp.push 5, WriteOp.push 7, WriteOp.frame])) ∧
    get_buffered_amount
        (write_push
          (run_write_ops initial_write_state
            [WriteOp.push 5, WriteOp.push 7, WriteOp.frame]) 9) =
      get_buffered_amount
        (run_write_ops initial_write_state
          [WriteOp.push 5, WriteOp.push 7, WriteOp.frame]) + 9 ∧
    get_buffered_amount
        (handle_write_frame
          (run_write_ops initial_write_state
            [WriteOp.push 5, WriteOp.push 7, WriteOp.frame])) + 5 =
      get_buffered_amount
        (run_write_ops initial_write_state
          [WriteOp.push 5, WriteOp.push 7, WriteOp.frame]) :=
  ⟨(buffered_amount_invariant
      [WriteOp.push 5, WriteOp.push 7, WriteOp.frame]).1,
   (buffered_amount_invariant
      [WriteOp.push 5, WriteOp.push 7, WriteOp.frame]).2.1 9,
   (buffered_amount_invariant
      [WriteOp.push 5, WriteOp.push 7, WriteOp.frame]).2.2 5 (by decide)⟩

/-- Scan a list of candidate versions and return the greatest one the
request matches, if any. -/
def pick_highest (req_matches : Int → Bool) : List Int → Option Int
  | [] => none
  | v :: rest =>
    match pick_highest req_matches rest with
    | some m => if req_matches v then some (max v m) else some m
    | none => if req_matches v then some v else none

/-- Modelled from the spec: the body of `get_supported_versions()`
(declared at connection.hpp lines 525-526) is in
`websocketpp/impl/connection_impl.hpp`, absent from the sources; per its
doc comment it returns the array of WebSocket protocol versions this
connection supports, i.e. `VERSIONS_SUPPORTED`. -/
def get_supported_versions : List Int := VERSIONS_SUPPORTED

/-- Modelled from the spec: the processor-selection step of
`initialize_processor` (declared at connection.hpp lines 558-560, body in
the missing impl file) enumerates the supported versions {0, 7, 8, 13}
and picks the highest one the request matches. `req_matches v` abstracts
whether the request's version headers match version `v`. -/
def select_version (req_matches : Int → Bool) : Option Int :=
  pick_highest req_matches VERSIONS_SUPPORTED

/-- Modelled from the spec: when version negotiation fails,
`initialize_processor` (body in the missing impl file) sets response
status 400 and lists the supported versions in the
`Sec-WebSocket-Version` header of the failure response. -/
def failure_sec_websocket_version_header : List Int := VERSIONS_SUPPORTED

/-- If scanning picks `v`, then `v` is a matching element of the
list. -/
theorem pick_highest_mem (req_matches : Int → Bool) (l : List Int) (v : Int)
    (h : pick_highest req_matches l = some v) : v ∈ l ∧ req_matches v = true := by
  induction l generalizing v with
  | nil => simp [pick_highest] at h
  | cons a rest ih =>
      simp only [pick_highest] at h
      cases hr : pick_highest req_matches rest with
      | none =>
          rw [hr] at h
          by_cases ha : req_matches a = true
          · simp [ha] at h
            subst h
            exact ⟨List.mem_cons_self a rest, ha⟩
          · simp [ha] at h
      | some m =>
          rw [hr] at h
          have hm := ih m hr
          by_cases ha : req_matches a = true
          · simp [ha] at h
            rcases max_cases a m with ⟨heq, _⟩ | ⟨heq, _⟩
            · rw [heq] at h
              subst h
              exact ⟨List.mem_cons_self a rest, ha⟩
            · rw [heq] at h
              subst h
              exact ⟨List.mem_cons_of_mem a hm.1, hm.2⟩
          · simp [ha] at h
            subst h
            exact ⟨List.mem_cons_of_mem a hm.1, hm.2⟩

/-- If scanning finds nothing, no element of the list req_matches. -/
theorem pick_highest_none (req_matches : Int → Bool) (l : List Int)
    (h : pick_highest req_matches l = none) :
    ∀ w ∈ l, req_matches w = false := by
  induction l with
  | nil => simp
  | cons a rest ih =>
      intro w hw
      simp only [pick_highest] at h
      cases hr : pick_highest req_matches rest with
      | none =>
          rw [hr] at h
          by_cases ha : req_matches a = true
          · simp [ha] at h
          · rcases List.mem_cons.mp hw with hwa | hwr
            · simpa [hwa] using ha
            · exact ih hr w hwr
      | some m => rw [hr] at h; by_cases ha : req_matches a = true <;> simp [ha] at h

/-- If scanning picks `v`, every matching element of the list is at most
`v`. -/
theorem pick_highest_greatest (req_matches : Int → Bool) (l : List Int)
    (v : Int) (h : pick_highest req_matches l = some v) :
    ∀ w ∈ l, req_matches w = true → w ≤ v := by
  induction l generalizing v with
  | nil => simp [pick_highest] at h
  | cons a rest ih =>
      intro w hw hmw
      simp only [pick_highest] at h
      cases hr : pick_highest req_matches rest with
      | none =>
          rw [hr] at h
          by_cases ha : req_matches a = true
          · simp [ha] at h
            subst h
            rcases List.mem_cons.mp hw with hwa | hwr
            · exact le_of_eq hwa
            · exact absurd hmw (by simp [pick_highest_none req_matches rest hr w hwr])
          · simp [ha] at h
      | some m =>
          rw [hr] at h
          by_cases ha : req_matches a = true
          · simp [ha] at h
            subst h
            rcases List.mem_cons.mp hw with hwa | hwr
            · exact hwa ▸ le_max_left a m
            · exact le_trans (ih m hr w hwr hmw) (le_max_right a m)
          · simp [ha] at h
            subst h
            rcases List.mem_cons.mp hw with hwa | hwr
            · exact absurd hmw (hwa ▸ by simp [ha])
            · exact ih _ hr w hwr hmw

/-- Claim C4: `get_supported_versions` returns exactly [0, 7, 8, 13] in
that order; processor selection picks, among the supported versions, the
highest matching one among them; and this same list is advertised in the
`Sec-WebSocket-Version` header of the 400 failure response. -/
theorem supported_versions_spec :
    get_supported_versions = [0, 7, 8, 13] ∧
    failure_sec_websocket_version_header = get_supported_versions ∧
    ∀ (req_matches : Int → Bool) (v : Int),
      select_version req_matches = some v →
        v ∈ get_supported_versions ∧ req_matches v = true ∧
        ∀ w ∈ get_supported_versions, req_matches w = true → w ≤ v := by
  refine ⟨rfl, rfl, fun req_matches v h => ?_⟩
  have hm := pick_highest_mem req_matches VERSIONS_SUPPORTED v h
  exact ⟨hm.1, hm.2, pick_highest_greatest req_matches VERSIONS_SUPPORTED v h⟩

/-- Witness for `supported_versions_spec`: a request matching versions 8
and 13 selects 13, the highest supported match. -/
theorem supported_versions_spec_witness :
    get_supported_versions = [0, 7, 8, 13] ∧
    ((13 : Int) ∈ get_supported_versions ∧
      ((fun v : Int => v = 8 || v = 13) 13) = true ∧
      ∀ w ∈ get_supported_versions,
        ((fun v : Int => v = 8 || v = 13) w) = true → w ≤ 13) :=
  ⟨supported_versions_spec.1,
   supported_versions_spec.2.2 (fun v : Int => v = 8 || v = 13) 13
     (by decide)⟩

/-- The user callbacks of `connection::handler`
(connection.hpp lines 133-152) that a connection delivers during its
lifetime. -/
inductive Callback
  | on_open
  | on_message
  | on_ping
  | on_pong
  | on_pong_timeout
  | on_interrupt
  | on_close
  | on_fail
deriving DecidableEq, Repr, Fintype

/-- Whether a callback is one of the two terminal events. -/
def Callback.isTerminal : Callback → Bool
  | .on_close => true
  | .on_fail => true
  | _ => false

/-- The externally observable lifecycle events of a connection. -/
inductive LifeEvent
  | handshake_success
  | handshake_fail
  | message_received
  | ping_received
  | pong_received
  | pong_timer_expired
  | interrupt_delivered
  | close_initiated
  | close_completed
  | transport_error
deriving DecidableEq, Repr, Fintype

/-- Modelled from the spec: the per-connection lifecycle step. The
handlers that drive it (`handle_transport_init`,
`handle_send_http_response`, `handle_read_frame`, `handle_write_frame`,
`process_control_frame`, `terminate`, declared in connection.hpp) have
their bodies in `websocketpp/impl/connection_impl.hpp`, absent from the
sources. Per the spec: a successful handshake moves CONNECTING to OPEN
and fires `on_open`; a failed handshake terminates with `on_fail`;
messages, pings, pongs, pong timeouts and interrupts deliver their
callbacks while the connection is live; a close handshake moves OPEN to
CLOSING and, on completion, terminates with `on_close`; a transport
error terminates with `on_fail`. Termination is idempotent: once CLOSED,
every further event is a no-op delivering nothing. -/
def life_step (s : SessionState) : LifeEvent → SessionState × List Callback
  | .handshake_success =>
      if s = .CONNECTING then (.OPEN, [.on_open]) else (s, [])
  | .handshake_fail =>
      if s = .CONNECTING then (.CLOSED, [.on_fail]) else (s, [])
  | .message_received =>
      if s = .OPEN then (.OPEN, [.on_message]) else (s, [])
  | .ping_received =>
      if s = .OPEN then (.OPEN, [.on_ping]) else (s, [])
  | .pong_received =>
      if s = .OPEN then (.OPEN, [.on_pong]) else (s, [])
  | .pong_timer_expired =>
      if s = .OPEN then (.OPEN, [.on_pong_timeout]) else (s, [])
  | .interrupt_delivered =>
      if s ≠ .CLOSED then (s, [.on_interrupt]) else (s, [])
  | .close_initiated =>
      if s = .OPEN then (.CLOSING, []) else (s, [])
  | .close_completed =>
      if s = .CLOSING then (.CLOSED, [.on_close]) else (s, [])
  | .transport_error =>
      if s ≠ .CLOSED then (.CLOSED, [.on_fail]) else (s, [])

/-- Run a sequence of lifecycle events from a state, collecting the
callbacks delivered, in order. -/
def life_run : SessionState → List LifeEvent → SessionState × List Callback
  | s, [] => (s, [])
  | s, e :: evs =>
      ((life_run (life_step s e).1 evs).1,
       (life_step s e).2 ++ (life_run (life_step s e).1 evs).2)

/-- Number of terminal callbacks in a delivered trace. -/
def terminal_count (cs : List Callback) : Nat :=
  (cs.filter Callback.isTerminal).length

/-- `terminal_count` adds over concatenation. -/
theorem terminal_count_append (a b : List Callback) :
    terminal_count (a ++ b) = terminal_count a + terminal_count b := by
  simp [terminal_count, List.filter_append]

/-- Once CLOSED, every event is a no-op delivering no callback. -/
theorem life_step_closed (e : LifeEvent) :
    life_step SessionState.CLOSED e = (SessionState.CLOSED, []) := by
  cases e <;> rfl

/-- A step that does not reach CLOSED delivers no terminal callback. -/
theorem life_step_not_closed (s : SessionState) (e : LifeEvent)
    (h : (life_step s e).1 ≠ SessionState.CLOSED) :
    terminal_count (life_step s e).2 = 0 := by
  revert h
  cases s <;> cases e <;> decide

/-- A step that moves a live connection to CLOSED delivers exactly one
callback, and it is terminal. -/
theorem life_step_to_closed (s : SessionState) (e : LifeEvent)
    (hs : s ≠ SessionState.CLOSED)
    (h : (life_step s e).1 = SessionState.CLOSED) :
    ∃ t : Callback, t.isTerminal = true ∧ (life_step s e).2 = [t] := by
  revert hs h
  cases s <;> cases e <;> decide

/-- From CLOSED, a run delivers nothing and stays CLOSED. -/
theorem life_run_closed (evs : List LifeEvent) :
    life_run SessionState.CLOSED evs = (SessionState.CLOSED, []) := by
  induction evs with
  | nil => rfl
  | cons e evs ih => simp [life_run, life_step_closed, ih]

/-- Core lifecycle lemma: starting from any live state, if the run ends
CLOSED its trace is some prefix free of terminal callbacks followed by a
single terminal callback; if it ends live, the trace has no terminal
callback at all. -/
theorem life_run_terminal (evs : List LifeEvent) (s : SessionState)
    (hs : s ≠ SessionState.CLOSED) :
    ((life_run s evs).1 = SessionState.CLOSED →
      ∃ pre t, (life_run s evs).2 = pre ++ [t] ∧
        Callback.isTerminal t = true ∧ terminal_count pre = 0) ∧
    ((life_run s evs).1 ≠ SessionState.CLOSED →
      terminal_count (life_run s evs).2 = 0) := by
  induction evs generalizing s with
  | nil =>
      refine ⟨fun h => absurd h hs, fun _ => ?_⟩
      simp [life_run, terminal_count]
  | cons e evs ih =>
      by_cases hmid : (life_step s e).1 = SessionState.CLOSED
      · obtain ⟨t, ht, hstep⟩ := life_step_to_closed s e hs hmid
        refine ⟨fun _ => ?_, fun hlive => ?_⟩
        · refine ⟨[], t, ?_, ht, by simp [terminal_count]⟩
          simp [life_run, hstep, hmid, life_run_closed]
        · exact absurd (by simp [life_run, hmid, life_run_closed]) hlive
      · have hrest := ih (life_step s e).1 hmid
        have hstep0 := life_step_not_closed s e hmid
        refine ⟨fun h => ?_, fun hlive => ?_⟩
        · have hfin : (life_run (life_step s e).1 evs).1 = SessionState.CLOSED := by
            simpa [life_run] using h
          obtain ⟨pre, t, htrace, ht, hpre⟩ := hrest.1 hfin
          refine ⟨(life_step s e).2 ++ pre, t, ?_, ht, ?_⟩
          · simp [life_run, htrace]
          · rw [terminal_count_append, hstep0, hpre]
        · have hfin : (life_run (life_step s e).1 evs).1 ≠ SessionState.CLOSED := by
            simpa [life_run] using hlive
          have := hrest.2 hfin
          simp [life_run, terminal_count_append, hstep0, this]

/-- Claim C2: in every complete connection lifecycle (a run from
CONNECTING that reaches CLOSED), exactly one of the terminal callbacks
`on_close` / `on_fail` is delivered — never both, never neither — and it
is the last user callback delivered. -/
theorem terminal_callback_exactly_once (evs : List LifeEvent)
    (h : (life_run SessionState.CONNECTING evs).1 = SessionState.CLOSED) :
    ∃ pre t, (life_run SessionState.CONNECTING evs).2 = pre ++ [t] ∧
      (t = Callback.on_close ∨ t = Callback.on_fail) ∧
      terminal_count pre = 0 ∧
      terminal_count (life_run SessionState.CONNECTING evs).2 = 1 := by
  obtain ⟨pre, t, htrace, ht, hpre⟩ :=
    (life_run_terminal evs SessionState.CONNECTING (by decide)).1 h
  refine ⟨pre, t, htrace, ?_, hpre, ?_⟩
  · cases t <;> simp_all [Callback.isTerminal]
  · rw [htrace, terminal_count_append, hpre]
    simp [terminal_count, ht]

/-- Witness for `terminal_callback_exactly_once`: the lifecycle
handshake success, one message, local close, close completion ends
CLOSED, and its trace `[on_open, on_message, on_close]` has `on_close`
as its one terminal callback, delivered last. -/
theorem terminal_callback_exactly_once_witness :
    ∃ pre t,
      (life_run SessionState.CONNECTING
        [LifeEvent.handshake_success, LifeEvent.message_received,
         LifeEvent.close_initiated, LifeEvent.close_completed]).2 =
        pre ++ [t] ∧
      (t = Callback.on_close ∨ t = Callback.on_fail) ∧
      terminal_count pre = 0 ∧
      terminal_count
        (life_run SessionState.CONNECTING
          [LifeEvent.handshake_success, LifeEvent.message_received,
           LifeEvent.close_initiated, LifeEvent.close_completed]).2 = 1 :=
  terminal_callback_exactly_once
    [LifeEvent.handshake_success, LifeEvent.message_received,
     LifeEvent.close_initiated, LifeEvent.close_completed] (by decide)

end Websocketpp
